import Mathlib

/-!
Verification of the roxy dynamic port-forwarding engine (src/roxy/server.py).

Python strings are embedded as lists of characters (`PyStr`), Python dicts
as association lists in insertion order, and the proxy lifecycle as a pure
state transition that records the externally visible actions it performs
as a list of events.
-/

namespace Roxy

/-- Python `str` embedded as a list of characters. -/
abbrev PyStr := List Char

/-- `DELIMITER = '|'` (server.py line 13): delimiter for serializing keys. -/
def DELIMITER : Char := '|'

/-- `START_PORT = 10000` (server.py line 12): starting external port. -/
def START_PORT : Nat := 10000

/-- Association-list lookup, mirroring Python `dict` key lookup /
`k in d` membership. -/
def dlookup {α β : Type} [DecidableEq α] : List (α × β) → α → Option β
  | [], _ => none
  | (a, b) :: rest, k => if k = a then some b else dlookup rest k

/-- `PROTOCOL_PORTS` (server.py lines 16-21): protocol → default port. -/
def PROTOCOL_PORTS : List (PyStr × Nat) :=
  [("ssh".toList, 22), ("telnet".toList, 23),
   ("http".toList, 80), ("https".toList, 443)]

/-- A mapping key `(ip, protocol)` (server.py line 161). -/
abbrev Key := PyStr × PyStr

/-- The in-memory mapping dictionary: keys `(ip, protocol)`, values the
external ports, in insertion order (a Python dict). -/
abbrev Mappings := List (Key × Nat)

/-- `max(mappings.values())` (server.py line 167); meaningful when the
mapping set is nonempty, where it equals the maximum value. -/
def maxValues (m : Mappings) : Nat :=
  (m.map Prod.snd).foldl max 0

/-- The mapping resolution of `index` (server.py lines 163-172): return the
existing external port for the key, else allocate `START_PORT` on an empty
dict or `max(values) + 1` otherwise, record the new entry and persist it.
Returns the port together with the updated mapping set. -/
def resolve (m : Mappings) (k : Key) : Nat × Mappings :=
  match dlookup m k with
  | some port => (port, m)
  | none =>
    let port := if m = [] then START_PORT else maxValues m + 1
    (port, m ++ [(k, port)])

/-! ### Serialization (save_mappings / load_mappings) -/

/-- Python `s.split(d)` on a single-character separator: splits into the
(always nonempty) list of delimiter-free segments, keeping empty segments. -/
def pySplit (d : Char) : PyStr → List PyStr
  | [] => [[]]
  | c :: cs =>
    if c = d then [] :: pySplit d cs
    else
      match pySplit d cs with
      | [] => [[c]]
      | s :: rest => (c :: s) :: rest

/-- Key serialization in `save_mappings` (server.py line 50):
`f"{k[0]}{DELIMITER}{k[1]}"`. -/
def serializeKey (k : Key) : PyStr :=
  k.1 ++ DELIMITER :: k.2

/-- `save_mappings` (server.py lines 44-51): the record set written to the
JSON file, each key serialized with the delimiter. -/
def save_mappings (m : Mappings) : List (PyStr × Nat) :=
  m.map fun kv => (serializeKey kv.1, kv.2)

/-- Key deserialization in `load_mappings` (server.py line 37):
`tuple(k.split(DELIMITER))` — a tuple of arbitrary arity, embedded as a
list of strings. -/
def deserializeKeys (s : List (PyStr × Nat)) : List (List PyStr × Nat) :=
  s.map fun kv => (pySplit DELIMITER kv.1, kv.2)

/-- A mapping set viewed as its set of (host, protocol, port) triples, with
the key as the two-element tuple it deserializes to when intact. -/
def asTriples (m : Mappings) : List (List PyStr × Nat) :=
  m.map fun kv => ([kv.1.1, kv.1.2], kv.2)

/-- The state of the underlying storage file as `load_mappings`
(server.py lines 26-42) can encounter it. -/
inductive Storage
  /-- `os.path.exists` is false: no mapping file. -/
  | missing
  /-- The file exists but `open` raises `OSError` (permission denied). -/
  | unreadable
  /-- The file is empty or holds invalid JSON: `json.load` raises
  `json.JSONDecodeError`. -/
  | invalidJson
  /-- The file holds valid JSON that is not an object, so `.items()`
  raises `AttributeError`. -/
  | jsonNonObject
  /-- The file holds a JSON object of string keys and integer values. -/
  | jsonObject (entries : List (PyStr × Nat))

/-- `load_mappings` (server.py lines 26-42): a missing file yields the
empty dict; `json.JSONDecodeError` is caught and yields the empty dict;
any other exception (`OSError` on open, `AttributeError` on a non-object)
propagates, modeled as `Except.error` naming the exception. -/
def load_mappings : Storage → Except PyStr (List (List PyStr × Nat))
  | .missing => .ok []
  | .unreadable => .error "OSError".toList
  | .invalidJson => .ok []
  | .jsonNonObject => .error "AttributeError".toList
  | .jsonObject entries => .ok (deserializeKeys entries)

/-! ### Proxy registry and listener lifecycle -/

/-- The forwarding target a proxy worker was started with. -/
structure Target where
  remote_ip : PyStr
  remote_port : Nat
deriving DecidableEq

/-- `active_proxies` (server.py line 24): ports currently holding a proxy
worker thread, each identified here by the target its worker forwards to. -/
abbrev Registry := List (Nat × Target)

/-- Externally visible actions of the lifecycle functions. -/
inductive Ev
  /-- `stop_proxy` pops the port and blocks in `proxy_thread.join()`. -/
  | joinThread (port : Nat)
  /-- Closing the bound listening socket of the port (no lifecycle
  function emits this; closing happens only inside the worker itself). -/
  | closeListener (port : Nat)
  /-- The worker thread caught a bind failure and printed it. -/
  | bindFail (port : Nat)
  /-- The worker thread bound the port and entered its accept loop. -/
  | listen (port : Nat) (t : Target)
deriving DecidableEq

/-- Remove a port entry, mirroring `active_proxies.pop(port)`. -/
def popPort : Registry → Nat → Registry
  | [], _ => []
  | kv :: rest, port =>
    if kv.1 = port then popPort rest port
    else kv :: popPort rest port

/-- Set a port entry, mirroring `active_proxies[local_port] = thread`. -/
def setPort (reg : Registry) (port : Nat) (t : Target) : Registry :=
  popPort reg port ++ [(port, t)]

/-- `stop_proxy` (server.py lines 53-60): if the port is registered, pop it
and join the worker thread; otherwise do nothing. The join is emitted as an
event; no `closeListener` is performed. -/
def stop_proxy (reg : Registry) (port : Nat) : Registry × List Ev :=
  if (dlookup reg port).isSome then
    (popPort reg port, [Ev.joinThread port])
  else
    (reg, [])

/-- `start_tcp_proxy` (server.py lines 62-96): if the port already has a
registered proxy, `stop_proxy` it — unconditionally, without comparing
targets. Then spawn the worker thread and register it under the port. The
worker binds asynchronously: `bindOk` tells whether the bind succeeds; on
failure the worker catches and prints the exception (`bindFail` event).
Either way the caller has already registered the thread and receives no
error value. -/
def start_tcp_proxy (bindOk : Nat → Bool) (reg : Registry)
    (local_port : Nat) (remote_ip : PyStr) (remote_port : Nat) :
    Registry × List Ev :=
  let stopped :=
    if (dlookup reg local_port).isSome then stop_proxy reg local_port
    else (reg, [])
  let workerEvs :=
    if bindOk local_port then [Ev.listen local_port ⟨remote_ip, remote_port⟩]
    else [Ev.bindFail local_port]
  (setPort stopped.1 local_port ⟨remote_ip, remote_port⟩,
   stopped.2 ++ workerEvs)

/-! ### The HTTP endpoint `index` -/

/-- HTTP method of a request to `/`. -/
inductive Method
  | get
  | post
deriving DecidableEq

/-- The parts of a Flask request that `index` reads: the method, the form
fields (POST body), the query arguments (URL), and the `Host` header. A
missing field is `none`. -/
structure Request where
  method : Method
  form_protocol : Option PyStr
  form_ip : Option PyStr
  args_protocol : Option PyStr
  args_ip : Option PyStr
  host : PyStr

/-- Python truthiness of an `Optional[str]`: `None` and `""` are falsy. -/
def truthy : Option PyStr → Bool
  | none => false
  | some s => !s.isEmpty

/-- The error shown by `render_template` when no redirect is issued. -/
inductive PageError
  /-- `f"Unsupported protocol ..."` (server.py line 157). -/
  | unsupportedProtocol (protocol : PyStr)
  /-- `"Please specify both protocol and IP."` (server.py line 187). -/
  | missingParams
deriving DecidableEq

/-- The outcome of one `index` request: the mapping set after the request
(the persisted state), the `start_tcp_proxy` invocation it spawned (port,
ip, internal port) if any, the redirect URL if one was issued, and the
rendered page error otherwise. -/
structure IndexResult where
  mappings : Mappings
  proxyStart : Option (Nat × PyStr × Nat)
  redirect : Option PyStr
  page_error : Option PageError
deriving DecidableEq

/-- `request.host.split(':')[0]` (server.py line 180). -/
def hostIp (host : PyStr) : PyStr :=
  (pySplit ':' host).headD []

/-- `f"{protocol}://{host_ip}:{port}"` (server.py line 181). -/
def redirectUrl (protocol host : PyStr) (port : Nat) : PyStr :=
  protocol ++ "://".toList ++ hostIp host ++ ':' :: (Nat.repr port).toList

/-- `index` (server.py lines 139-188): read `protocol` and `ip` from the
form on POST and from the query arguments on GET; if both are truthy,
reject unsupported protocols, otherwise resolve the mapping (allocating
and persisting if new), spawn `start_tcp_proxy(port, ip, internal_port)`
and redirect; if either parameter is missing, render the page, with an
error message only on POST. `m` is the mapping set `load_mappings`
returned. -/
def index (req : Request) (m : Mappings) : IndexResult :=
  let protocol :=
    match req.method with
    | .post => req.form_protocol
    | .get => req.args_protocol
  let ip :=
    match req.method with
    | .post => req.form_ip
    | .get => req.args_ip
  if truthy protocol && truthy ip then
    let p := protocol.getD []
    let i := ip.getD []
    match dlookup PROTOCOL_PORTS p with
    | none =>
      { mappings := m, proxyStart := none, redirect := none,
        page_error := some (.unsupportedProtocol p) }
    | some internal_port =>
      let r := resolve m (i, p)
      { mappings := r.2, proxyStart := some (r.1, i, internal_port),
        redirect := some (redirectUrl p req.host r.1), page_error := none }
  else
    { mappings := m, proxyStart := none, redirect := none,
      page_error := if req.method = .post then some .missingParams else none }

/-! ### Helper lemmas -/

theorem dlookup_append_self {α β : Type} [DecidableEq α]
    {m : List (α × β)} {k : α} {p : β}
    (h : dlookup m k = none) : dlookup (m ++ [(k, p)]) k = some p := by
  induction m with
  | nil => simp [dlookup]
  | cons kv rest ih =>
    rw [dlookup] at h
    by_cases hk : k = kv.1
    · simp [hk] at h
    · rw [List.cons_append, dlookup]
      simp only [hk, if_neg, if_false]
      exact ih (by simpa [hk] using h)

theorem dlookup_none_not_mem {α β : Type} [DecidableEq α]
    {m : List (α × β)} {k : α}
    (h : dlookup m k = none) : k ∉ m.map Prod.fst := by
  induction m with
  | nil => simp
  | cons kv rest ih =>
    rw [dlookup] at h
    by_cases hk : k = kv.1
    · simp [hk] at h
    · simp only [List.map_cons, List.mem_cons]
      push_neg
      exact ⟨hk, ih (by simpa [hk] using h)⟩

theorem le_foldl_max (l : List Nat) (a : Nat) :
    a ≤ l.foldl max a ∧ ∀ x ∈ l, x ≤ l.foldl max a := by
  induction l generalizing a with
  | nil => simp
  | cons y ys ih =>
    refine ⟨?_, ?_⟩
    · exact le_trans (le_max_left a y) (ih (max a y)).1
    · intro x hx
      rcases List.mem_cons.mp hx with rfl | hx
      · exact le_trans (le_max_right a x) (ih (max a x)).1
      · exact (ih (max a y)).2 x hx

theorem mem_le_maxValues {m : Mappings} {kv : Key × Nat}
    (h : kv ∈ m) : kv.2 ≤ maxValues m :=
  (le_foldl_max (m.map Prod.snd) 0).2 kv.2 (List.mem_map_of_mem Prod.snd h)

theorem pySplit_no_delim {d : Char} {p : PyStr} (h : d ∉ p) :
    pySplit d p = [p] := by
  induction p with
  | nil => rfl
  | cons c cs ih =>
    have hc : ¬ c = d := fun hcd => h (hcd ▸ List.mem_cons_self c cs)
    have hcs : d ∉ cs := fun hm => h (List.mem_cons_of_mem c hm)
    rw [pySplit, if_neg hc, ih hcs]

theorem pySplit_join {d : Char} {h p : PyStr} (hh : d ∉ h) :
    pySplit d (h ++ d :: p) = h :: pySplit d p := by
  induction h with
  | nil => simp [pySplit]
  | cons c cs ih =>
    have hc : ¬ c = d := fun hcd => hh (hcd ▸ List.mem_cons_self c cs)
    have hcs : d ∉ cs := fun hm => hh (List.mem_cons_of_mem c hm)
    rw [List.cons_append, pySplit, if_neg hc, ih hcs]

/-! ### Claim theorems -/

/-- C1. For every mapping set, resolving a new `(remote_host, protocol)`
pair allocates `START_PORT` when the set is empty and
`max(existing external ports) + 1` otherwise; starting from the empty
store, a first resolve returns `START_PORT` and a second resolve for a
different unseen pair returns `START_PORT + 1`. -/
theorem resolve_allocation_policy (m : Mappings) (k k1 k2 : Key)
    (hnew : dlookup m k = none) (hne : k2 ≠ k1) :
    (resolve m k).1 = (if m = [] then START_PORT else maxValues m + 1) ∧
    (resolve [] k1).1 = START_PORT ∧
    (resolve (resolve [] k1).2 k2).1 = START_PORT + 1 := by
  refine ⟨?_, rfl, ?_⟩
  · rw [resolve, hnew]
  · have h1 : (resolve [] k1).2 = [(k1, START_PORT)] := rfl
    rw [h1, resolve]
    have hl : dlookup [(k1, START_PORT)] k2 = none := by
      rw [dlookup, if_neg hne]; rfl
    rw [hl]
    simp [maxValues, START_PORT]

/-- Witness for C1 at concrete inputs. -/
theorem resolve_allocation_policy_witness :
    (resolve [] ("10.0.0.1".toList, "ssh".toList)).1 =
      (if ([] : Mappings) = [] then START_PORT else maxValues [] + 1) ∧
    (resolve [] ("10.0.0.1".toList, "ssh".toList)).1 = START_PORT ∧
    (resolve (resolve [] ("10.0.0.1".toList, "ssh".toList)).2
      ("10.0.0.2".toList, "http".toList)).1 = START_PORT + 1 :=
  resolve_allocation_policy [] ("10.0.0.1".toList, "ssh".toList)
    ("10.0.0.1".toList, "ssh".toList) ("10.0.0.2".toList, "http".toList)
    (by rfl) (by decide)

/-- C2. `resolve` is idempotent: for every mapping state and pair, a second
resolve of the identical pair returns the same external port, leaves the
mapping set unchanged, and in particular does not grow its size. -/
theorem resolve_idempotent (m : Mappings) (k : Key) :
    (resolve (resolve m k).2 k).1 = (resolve m k).1 ∧
    (resolve (resolve m k).2 k).2 = (resolve m k).2 ∧
    (resolve (resolve m k).2 k).2.length = (resolve m k).2.length := by
  have key : ∀ r : Nat × Mappings, dlookup r.2 k = some r.1 →
      (resolve r.2 k).1 = r.1 ∧ (resolve r.2 k).2 = r.2 := by
    intro r hr
    constructor <;> rw [resolve, hr]
  have hsome : dlookup (resolve m k).2 k = some (resolve m k).1 := by
    rw [resolve]
    cases hl : dlookup m k with
    | some p => simpa using hl
    | none => simpa using dlookup_append_self hl
  obtain ⟨h1, h2⟩ := key _ hsome
  exact ⟨h1, h2, by rw [h2]⟩

/-- C3, counterexample. Persist followed by load is not the identity on
every mapping set: a host containing the delimiter character splits into
extra components on load, so the loaded key set differs from the saved
one. -/
theorem save_load_roundtrip_counterexample :
    deserializeKeys (save_mappings [(("a|b".toList, "ssh".toList), 10000)]) ≠
      asTriples [(("a|b".toList, "ssh".toList), 10000)] := by
  decide

/-- C3, amended. Persist followed by load is the identity on every mapping
set whose host and protocol strings are free of the delimiter character:
saving with `save_mappings` and re-reading the stored records yields the
same set of (host, protocol, external_port) triples, with no loss of
keys. -/
theorem save_load_roundtrip_delim_free (m : Mappings)
    (h : ∀ kv ∈ m, DELIMITER ∉ kv.1.1 ∧ DELIMITER ∉ kv.1.2) :
    deserializeKeys (save_mappings m) = asTriples m := by
  induction m with
  | nil => rfl
  | cons kv rest ih =>
    obtain ⟨h1, h2⟩ := h kv (List.mem_cons_self kv rest)
    have hrest : ∀ kv ∈ rest, DELIMITER ∉ kv.1.1 ∧ DELIMITER ∉ kv.1.2 :=
      fun kv hkv => h kv (List.mem_cons_of_mem _ hkv)
    simp only [save_mappings, deserializeKeys, asTriples, List.map_cons,
      List.map_map] at ih ⊢
    rw [show serializeKey kv.1 = kv.1.1 ++ DELIMITER :: kv.1.2 from rfl,
      pySplit_join h1, pySplit_no_delim h2]
    exact congrArg _ (ih hrest)

/-- Witness for the amended C3 at a concrete delimiter-free mapping set. -/
theorem save_load_roundtrip_delim_free_witness :
    deserializeKeys (save_mappings
        [(("10.0.0.1".toList, "ssh".toList), 10000),
         (("10.0.0.2".toList, "http".toList), 10001)]) =
      asTriples
        [(("10.0.0.1".toList, "ssh".toList), 10000),
         (("10.0.0.2".toList, "http".toList), 10001)] :=
  save_load_roundtrip_delim_free
    [(("10.0.0.1".toList, "ssh".toList), 10000),
     (("10.0.0.2".toList, "http".toList), 10001)]
    (by decide)

/-- The mapping states reachable from the empty store by `resolve`
operations. -/
inductive Reachable : Mappings → Prop
  | empty : Reachable []
  | step (m : Mappings) (k : Key) : Reachable m → Reachable (resolve m k).2

/-- C4. In every state reachable from the empty store by resolve
operations, the external-port values are pairwise distinct and the
(remote-host, protocol) keys are pairwise distinct, so each pair is
associated with exactly one external port. -/
theorem reachable_ports_distinct (m : Mappings) (h : Reachable m) :
    (m.map Prod.snd).Nodup ∧ (m.map Prod.fst).Nodup := by
  induction h with
  | empty => simp
  | step m k hm ih =>
    cases hl : dlookup m k with
    | some p =>
      have he : (resolve m k).2 = m := by rw [resolve, hl]
      rw [he]; exact ih
    | none =>
      have he : (resolve m k).2 =
          m ++ [(k, if m = [] then START_PORT else maxValues m + 1)] := by
        rw [resolve, hl]
      rw [he]
      obtain ⟨ihv, ihk⟩ := ih
      constructor
      · rw [List.map_append, List.nodup_append]
        refine ⟨ihv, by simp, ?_⟩
        simp only [List.map_cons, List.map_nil, List.disjoint_singleton]
        intro hmem
        by_cases hme : m = []
        · simp [hme] at hmem
        · rw [if_neg hme] at hmem
          exact absurd ((le_foldl_max (m.map Prod.snd) 0).2 _ hmem)
            (by simp [maxValues])
      · rw [List.map_append, List.nodup_append]
        exact ⟨ihk, by simp, by
          simp only [List.map_cons, List.map_nil, List.disjoint_singleton]
          exact dlookup_none_not_mem hl⟩

/-- Witness for C4 at a concrete reachable state (two resolves from the
empty store). -/
theorem reachable_ports_distinct_witness :
    ((resolve (resolve [] ("10.0.0.1".toList, "ssh".toList)).2
        ("10.0.0.2".toList, "http".toList)).2.map Prod.snd).Nodup ∧
    ((resolve (resolve [] ("10.0.0.1".toList, "ssh".toList)).2
        ("10.0.0.2".toList, "http".toList)).2.map Prod.fst).Nodup :=
  reachable_ports_distinct _
    (Reachable.step _ ("10.0.0.2".toList, "http".toList)
      (Reachable.step [] ("10.0.0.1".toList, "ssh".toList) Reachable.empty))

theorem dlookup_popPort_self (reg : Registry) (port : Nat) :
    dlookup (popPort reg port) port = none := by
  induction reg with
  | nil => rfl
  | cons kv rest ih =>
    rw [popPort]
    by_cases hk : kv.1 = port
    · rw [if_pos hk]; exact ih
    · rw [if_neg hk, dlookup, if_neg fun hp => hk hp.symm]; exact ih

theorem dlookup_setPort_self (reg : Registry) (port : Nat) (t : Target) :
    dlookup (setPort reg port t) port = some t :=
  dlookup_append_self (dlookup_popPort_self reg port)

/-- C5, counterexample. Re-requesting a port that is already running with
an identical (remote_host, remote_port) target is not a no-op: the
existing listener is stopped (its thread popped and joined) and a fresh
worker is started. -/
theorem start_identical_target_counterexample :
    (start_tcp_proxy (fun _ => true)
        [(10000, ⟨"10.0.0.1".toList, 22⟩)] 10000 "10.0.0.1".toList 22).2 =
      [Ev.joinThread 10000,
       Ev.listen 10000 ⟨"10.0.0.1".toList, 22⟩] := by
  decide

/-- C5, amended. Calling `start_tcp_proxy` for a port that already has a
registered proxy always stops the existing listener first — the target is
never compared, so this happens even when the target is identical — and
then registers a fresh worker for the given target under that port. -/
theorem start_always_replaces (bindOk : Nat → Bool) (reg : Registry)
    (port : Nat) (ip : PyStr) (rp : Nat)
    (h : (dlookup reg port).isSome = true) :
    (start_tcp_proxy bindOk reg port ip rp).2 =
      Ev.joinThread port ::
        (if bindOk port then [Ev.listen port ⟨ip, rp⟩]
         else [Ev.bindFail port]) ∧
    dlookup (start_tcp_proxy bindOk reg port ip rp).1 port =
      some ⟨ip, rp⟩ := by
  rw [start_tcp_proxy]
  simp only [h, if_true, stop_proxy]
  exact ⟨rfl, dlookup_setPort_self _ _ _⟩

/-- Witness for the amended C5 at a concrete running registry. -/
theorem start_always_replaces_witness :
    (start_tcp_proxy (fun _ => true)
        [(10000, ⟨"10.0.0.1".toList, 22⟩)] 10000 "10.0.0.1".toList 22).2 =
      Ev.joinThread 10000 ::
        (if (fun _ : Nat => true) 10000 then
          [Ev.listen 10000 ⟨"10.0.0.1".toList, 22⟩]
         else [Ev.bindFail 10000]) ∧
    dlookup (start_tcp_proxy (fun _ => true)
        [(10000, ⟨"10.0.0.1".toList, 22⟩)] 10000 "10.0.0.1".toList 22).1
      10000 = some ⟨"10.0.0.1".toList, 22⟩ :=
  start_always_replaces (fun _ => true)
    [(10000, ⟨"10.0.0.1".toList, 22⟩)] 10000 "10.0.0.1".toList 22
    (by decide)

/-- C6, counterexample. When the bind fails, the failure is only caught
and printed inside the worker thread, and the registry still holds an
entry for the port: starting on an empty registry with a failing bind
leaves the port registered. -/
theorem bind_failure_counterexample :
    (start_tcp_proxy (fun _ => false) [] 10000 "10.0.0.1".toList 22).2 =
      [Ev.bindFail 10000] ∧
    dlookup (start_tcp_proxy (fun _ => false) []
        10000 "10.0.0.1".toList 22).1 10000 ≠ none := by
  decide

/-- C6, amended. When the bind for a port fails, the exception is caught
inside the worker thread (a logged `bindFail` event, not a synchronous
error to the caller, whose return carries no error value), and the
registry keeps the entry registered for that port with the requested
target — it shows the listener although its bind failed. -/
theorem bind_failure_keeps_entry (bindOk : Nat → Bool) (reg : Registry)
    (port : Nat) (ip : PyStr) (rp : Nat) (h : bindOk port = false) :
    dlookup (start_tcp_proxy bindOk reg port ip rp).1 port =
      some ⟨ip, rp⟩ ∧
    Ev.bindFail port ∈ (start_tcp_proxy bindOk reg port ip rp).2 := by
  rw [start_tcp_proxy]
  simp only [h, if_false, Bool.false_eq_true]
  exact ⟨dlookup_setPort_self _ _ _,
    List.mem_append_right _ (List.mem_singleton.mpr rfl)⟩

/-- Witness for the amended C6 at a concrete failing bind. -/
theorem bind_failure_keeps_entry_witness :
    dlookup (start_tcp_proxy (fun _ => false) []
        10000 "10.0.0.1".toList 22).1 10000 =
      some ⟨"10.0.0.1".toList, 22⟩ ∧
    Ev.bindFail 10000 ∈
      (start_tcp_proxy (fun _ => false) []
        10000 "10.0.0.1".toList 22).2 :=
  bind_failure_keeps_entry (fun _ => false) [] 10000 "10.0.0.1".toList 22
    rfl

/-- C7. Evaluating `stop_proxy` on a registry with a running listener:
it pops the entry and joins the worker thread, but never closes the bound
listening socket — no `closeListener` action occurs before the join, so
nothing unblocks the accept loop the join waits on. -/
theorem stop_joins_without_closing_listener :
    (stop_proxy [(10000, ⟨"10.0.0.1".toList, 22⟩)] 10000).2 =
      [Ev.joinThread 10000] ∧
    Ev.closeListener 10000 ∉
      (stop_proxy [(10000, ⟨"10.0.0.1".toList, 22⟩)] 10000).2 := by
  decide

/-- A plain GET request to `/` carrying the parameters as query
arguments, with an empty form. -/
def demoGetRequest : Request :=
  { method := .get, form_protocol := none, form_ip := none,
    args_protocol := some "ssh".toList, args_ip := some "10.0.0.1".toList,
    host := "roxy.local".toList }

/-- C10. `index` treats GET and POST identically: for every store and
every (protocol, ip) input, supplying the parameters as GET query
arguments yields the same mapping allocation, the same
`start_tcp_proxy` invocation and the same redirect outcome as supplying
them as POST form fields (whatever the unused form/args fields hold);
in particular a plain GET request creates a persistent mapping and
starts a listener. -/
theorem index_get_post_equivalent (m : Mappings) (p i : Option PyStr)
    (fp fi ap ai : Option PyStr) (host : PyStr) :
    ((index ⟨.get, fp, fi, p, i, host⟩ m).mappings =
        (index ⟨.post, p, i, ap, ai, host⟩ m).mappings ∧
      (index ⟨.get, fp, fi, p, i, host⟩ m).proxyStart =
        (index ⟨.post, p, i, ap, ai, host⟩ m).proxyStart ∧
      (index ⟨.get, fp, fi, p, i, host⟩ m).redirect =
        (index ⟨.post, p, i, ap, ai, host⟩ m).redirect) ∧
    ((index demoGetRequest []).mappings ≠ [] ∧
      (index demoGetRequest []).proxyStart.isSome = true ∧
      (index demoGetRequest []).redirect.isSome = true) := by
  refine ⟨?_, by decide, by decide, by decide⟩
  rw [index, index]
  by_cases hc : (truthy p && truthy i) = true
  · simp only [hc, if_true]
    cases dlookup PROTOCOL_PORTS (p.getD []) <;> simp
  · simp only [hc, Bool.false_eq_true, if_false]
    simp

/-- Whether `load_mappings` returns normally (no exception propagates). -/
def loadSucceeds : Except PyStr (List (List PyStr × Nat)) → Bool
  | .ok _ => true
  | .error _ => false

/-- C8, counterexample. An unreadable mapping file does not yield the
empty mapping set: `open` raises `OSError` outside the
`json.JSONDecodeError` handler, so the error propagates to the caller. -/
theorem load_unreadable_counterexample :
    load_mappings Storage.unreadable ≠ Except.ok [] := by
  intro h
  exact Except.noConfusion h

/-- C8, amended. A missing mapping file and a file whose contents are
empty or invalid JSON yield the empty mapping set; but an unreadable file
(`OSError`) and a file holding valid JSON that is not an object
(`AttributeError` on `.items()`) raise uncaught exceptions rather than
returning the empty set. -/
theorem load_mappings_error_handling :
    load_mappings Storage.missing = Except.ok [] ∧
    load_mappings Storage.invalidJson = Except.ok [] ∧
    loadSucceeds (load_mappings Storage.unreadable) = false ∧
    loadSucceeds (load_mappings Storage.jsonNonObject) = false :=
  ⟨rfl, rfl, rfl, rfl⟩

end Roxy
